import Mathlib

/-!
Shallow embedding of the goldfish-opengl mapper@3.0 implementation
(`system/hals/mapper3.cpp`): buffer-handle import/free, the lock/unlock
state machine, the YUV plane-layout computation of `lockYCbCrImpl`, and
the descriptor support check `isSupportedImpl`.

Machine integers (`size_t`, `uint64_t`, `uint32_t`, `uint8_t`) are
modelled as `Nat`; signed `int` values (rectangle coordinates, errno-style
return codes) as `Int`.  Pointers are modelled as addresses (`Nat`, with
`0` standing for the null pointer).  External effects (handle cloning,
`mmap`, fence waiting, host round-trips) are modelled as explicit oracle
parameters describing their outcome.
-/

namespace Mapper3

/-- `android.hardware.graphics.mapper@3.0::Error`. -/
inductive Error3 where
  | NONE
  | BAD_BUFFER
  | BAD_VALUE
  | NO_RESOURCES
deriving DecidableEq, Repr

/-- `IMapper::Rect`: `int32_t left, top, width, height`. -/
structure Rect where
  left : Int
  top : Int
  width : Int
  height : Int
deriving DecidableEq, Repr

/-- `BufferUsage::CPU_READ_MASK = 0xf`. -/
def CPU_READ_MASK : Nat := 0xf
/-- `BufferUsage::CPU_WRITE_MASK = 0xf << 4`. -/
def CPU_WRITE_MASK : Nat := 0xf0
/-- `BufferUsage::GPU_TEXTURE = 1 << 8`. -/
def GPU_TEXTURE : Nat := 2 ^ 8
/-- `BufferUsage::GPU_RENDER_TARGET = 1 << 9`. -/
def GPU_RENDER_TARGET : Nat := 2 ^ 9
/-- `BufferUsage::COMPOSER_OVERLAY = 1 << 11`. -/
def COMPOSER_OVERLAY : Nat := 2 ^ 11
/-- `BufferUsage::COMPOSER_CLIENT_TARGET = 1 << 12`. -/
def COMPOSER_CLIENT_TARGET : Nat := 2 ^ 12
/-- `BufferUsage::VIDEO_DECODER = 1 << 22`. -/
def VIDEO_DECODER : Nat := 2 ^ 22
/-- `BufferUsage::GPU_DATA_BUFFER = 1 << 24`. -/
def GPU_DATA_BUFFER : Nat := 2 ^ 24

/-- `PixelFormat` numeric values (android.hardware.graphics.common). -/
def RGBA_8888 : Nat := 1
def RGBX_8888 : Nat := 2
def RGB_888 : Nat := 3
def RGB_565 : Nat := 4
def BGRA_8888 : Nat := 5
def YCRCB_420_SP : Nat := 0x11
def RGBA_FP16 : Nat := 0x16
def RAW16 : Nat := 0x20
def BLOB : Nat := 0x21
def IMPLEMENTATION_DEFINED : Nat := 0x22
def YCBCR_420_888 : Nat := 0x23
def RGBA_1010102 : Nat := 0x2B
def YCBCR_P010 : Nat := 0x36
def Y16 : Nat := 0x20363159
def YV12 : Nat := 0x32315659

/-- `const int kOMX_COLOR_FormatYUV420Planar = 19;` (mapper3.cpp line 30). -/
def kOMX_COLOR_FormatYUV420Planar : Nat := 19

/-- `size_t align(const size_t v, const size_t a) { return (v + a - 1) & ~(a - 1); }`
with the bitwise complement taken at the 64-bit width of `size_t`
(`~x = x xor (2^64 - 1)`). -/
def align (v a : Nat) : Nat :=
  Nat.land (v + a - 1) (Nat.xor (2 ^ 64 - 1) (a - 1))

/-- `constexpr uint64_t ones(int from, int to)`:
`((one64 << (to - from + 1)) - 1) << from`. -/
def ones (from' to' : Nat) : Nat :=
  ((1 <<< (to' - from' + 1)) - 1) <<< from'

/-- `kReservedUsage`: BufferUsage bits that must be zero
(bits 10, 13, 19, 21, 25-27 and 32-47). -/
def kReservedUsage : Nat :=
  (1 <<< 10) ||| (1 <<< 13) ||| (1 <<< 19) ||| (1 <<< 21)
  ||| ones 25 27 ||| ones 32 47

/-- Modelled from the spec (the `cb_handle_30.h` header is not part of the
sources): the BufferHandle record — immutable descriptor snapshot, derived
layout (bytesPerPixel, stride, two host format codes), optional host handle
(`0` = absent), mapping info (fd index, offset, mapped size, mapped pointer,
`bufferPtr = 0` meaning null/unmapped), declared buffer size, and the
mutable lock state `lockedUsage` (0 = unlocked) with the locked region.
The fields are exactly those `mapper3.cpp` reads and writes on
`cb_handle_30_t`. -/
structure CbHandle where
  width : Nat
  height : Nat
  format : Nat
  usage : Nat
  bufferSize : Nat
  mmapedSize : Nat
  bufferFdIndex : Int
  mmapedOffset : Nat
  bufferPtr : Nat
  hostHandle : Nat
  bytesPerPixel : Nat
  stride : Nat
  glFormat : Nat
  glType : Nat
  lockedUsage : Nat
  lockedLeft : Int
  lockedTop : Int
  lockedWidth : Int
  lockedHeight : Int
deriving DecidableEq, Repr

/-- The `void* raw` argument as the impl functions see it after
`cb_handle_30_t::from`: a null pointer, a pointer that does not decode to a
recognized `cb_handle_30_t` (magic check fails), or a valid handle. -/
inductive RawBuffer where
  | null
  | unrecognized
  | valid (cb : CbHandle)
deriving DecidableEq, Repr

/-- The acquire-fence `hidl_handle`: either an empty handle
(`getNativeHandle() == nullptr`) or a native handle with `numFds`/`numInts`
counts and an oracle for the eventual result of `waitFenceFd` on its fd
(0 = clean signal, nonzero = errno-style failure). -/
inductive HidlFence where
  | emptyFence
  | fence (numFds : Nat) (numInts : Nat) (waitResult : Int)
deriving DecidableEq, Repr

/-- `waitHidlFence` (mapper3.cpp lines 67-81): a null native handle returns 0
immediately; more than one fd or any int field returns `-EINVAL`; otherwise
the result of `waitFenceFd` on `data[0]` (oracle). -/
def waitHidlFence : HidlFence → Int
  | HidlFence.emptyFence => 0
  | HidlFence.fence numFds numInts waitResult =>
    if numFds > 1 then -22
    else if numInts ≠ 0 then -22
    else waitResult

/-- `checkedUsage = uncheckedUsage & cb->usage & (CPU_READ_MASK | CPU_WRITE_MASK)`
(the `uint8_t` truncation is the identity because the mask is `0xff`). -/
def checkedUsageOf (uncheckedUsage : Nat) (cb : CbHandle) : Nat :=
  Nat.land (Nat.land uncheckedUsage cb.usage) (CPU_READ_MASK ||| CPU_WRITE_MASK)

/-- `setLocked` (mapper3.cpp lines 259-273): record the locked region —
the caller's region when the checked usage has a CPU-write bit, the full
buffer extent otherwise — then `lockedUsage = checkedUsage`. -/
def setLocked (cb : CbHandle) (checkedUsage : Nat) (accessRegion : Rect) : CbHandle :=
  if Nat.land checkedUsage CPU_WRITE_MASK ≠ 0 then
    { cb with
        lockedLeft := accessRegion.left
        lockedTop := accessRegion.top
        lockedWidth := accessRegion.width
        lockedHeight := accessRegion.height
        lockedUsage := checkedUsage }
  else
    { cb with
        lockedLeft := 0
        lockedTop := 0
        lockedWidth := (cb.width : Int)
        lockedHeight := (cb.height : Int)
        lockedUsage := checkedUsage }

/-- `lockHostImpl` (mapper3.cpp lines 417-504) as far as its observable
error result goes: `rcColorBufferCacheFlush` returning a negative value
(oracle `hostFlushRes`) yields `NO_RESOURCES`; the subsequent read-back
calls transfer pixel data but cannot fail. Lock state is untouched. -/
def lockHostImpl (hostFlushRes : Int) : Error3 :=
  if hostFlushRes < 0 then Error3.NO_RESOURCES else Error3.NONE

/-- The YUV plane-layout switch of `lockYCbCrImpl`
(mapper3.cpp lines 354-396), returning
`(yStride, cStride, cStep, uOffset, vOffset)`; `none` for the `default:`
branch (unexpected format → `BAD_BUFFER`). -/
def ycbcrLayoutSwitch (format width height : Nat) :
    Option (Nat × Nat × Nat × Nat × Nat) :=
  if format = YCRCB_420_SP then
    let yStride := width
    let cStride := yStride
    let vOffset := yStride * height
    let uOffset := vOffset + 1
    some (yStride, cStride, 2, uOffset, vOffset)
  else if format = YV12 then
    let yStride := align width 16
    let cStride := align (yStride / 2) 16
    let vOffset := yStride * height
    let uOffset := vOffset + (cStride * height / 2)
    some (yStride, cStride, 1, uOffset, vOffset)
  else if format = YCBCR_420_888 then
    let yStride := width
    let cStride := yStride / 2
    let uOffset := height * yStride
    let vOffset := uOffset + cStride * height / 2
    some (yStride, cStride, 1, uOffset, vOffset)
  else if format = YCBCR_P010 then
    let yStride := width * 2
    let cStride := yStride
    let uOffset := height * yStride
    let vOffset := uOffset + 2
    some (yStride, cStride, 4, uOffset, vOffset)
  else
    none

/-- Result of `lockImpl`: the error, the (possibly updated) handle, and the
out-parameters `*pptr`, `*pBytesPerPixel`, `*pBytesPerStride` (zero when the
wrapper reports an error via `hidl_cb(e, nullptr, 0, 0)`). -/
structure LockResult where
  err : Error3
  buf : RawBuffer
  ptr : Nat
  bytesPerPixel : Nat
  bytesPerStride : Nat
deriving DecidableEq, Repr

/-- `lockImpl` (mapper3.cpp lines 275-321). `hostFlushRes` is the oracle for
the `rcColorBufferCacheFlush` host round-trip inside `lockHostImpl`
(only consulted when `cb->hostHandle` is set). -/
def lockImpl (raw : RawBuffer) (uncheckedUsage : Nat) (accessRegion : Rect)
    (acquireFence : HidlFence) (hostFlushRes : Int) : LockResult :=
  match raw with
  | RawBuffer.null => ⟨Error3.BAD_BUFFER, raw, 0, 0, 0⟩
  | RawBuffer.unrecognized => ⟨Error3.BAD_BUFFER, raw, 0, 0, 0⟩
  | RawBuffer.valid cb =>
    if cb.lockedUsage ≠ 0 then ⟨Error3.BAD_VALUE, raw, 0, 0, 0⟩
    else
      let checkedUsage := checkedUsageOf uncheckedUsage cb
      if checkedUsage = 0 then ⟨Error3.BAD_VALUE, raw, 0, 0, 0⟩
      else if cb.bufferSize = 0 then ⟨Error3.BAD_BUFFER, raw, 0, 0, 0⟩
      else if cb.bufferPtr = 0 then ⟨Error3.BAD_BUFFER, raw, 0, 0, 0⟩
      else if waitHidlFence acquireFence ≠ 0 then ⟨Error3.BAD_VALUE, raw, 0, 0, 0⟩
      else if cb.hostHandle ≠ 0 ∧ lockHostImpl hostFlushRes ≠ Error3.NONE then
        ⟨lockHostImpl hostFlushRes, raw, 0, 0, 0⟩
      else
        ⟨Error3.NONE, RawBuffer.valid (setLocked cb checkedUsage accessRegion),
          cb.bufferPtr, cb.bytesPerPixel, cb.bytesPerPixel * cb.stride⟩

/-- `YCbCrLayout` with pointers as addresses (`y = bufferBits`,
`cb = bufferBits + uOffset`, `cr = bufferBits + vOffset`). -/
structure YCbCrLayout3 where
  y : Nat
  cbPlane : Nat
  crPlane : Nat
  yStride : Nat
  cStride : Nat
  chromaStep : Nat
deriving DecidableEq, Repr

/-- Result of `lockYCbCrImpl`: error, updated handle, and the layout
out-parameter (`none` when the wrapper reports an error). -/
structure LockYCbCrResult where
  err : Error3
  buf : RawBuffer
  ycbcr : Option YCbCrLayout3
deriving DecidableEq, Repr

/-- `lockYCbCrImpl` (mapper3.cpp lines 323-415): the same precondition
chain as `lockImpl`, then the plane-layout switch (`ycbcrLayoutSwitch`,
`default:` → `BAD_BUFFER`), the host synchronization, `setLocked`, and the
plane pointers derived from the layout. -/
def lockYCbCrImpl (raw : RawBuffer) (uncheckedUsage : Nat) (accessRegion : Rect)
    (acquireFence : HidlFence) (hostFlushRes : Int) : LockYCbCrResult :=
  match raw with
  | RawBuffer.null => ⟨Error3.BAD_BUFFER, raw, none⟩
  | RawBuffer.unrecognized => ⟨Error3.BAD_BUFFER, raw, none⟩
  | RawBuffer.valid cb =>
    if cb.lockedUsage ≠ 0 then ⟨Error3.BAD_VALUE, raw, none⟩
    else
      let checkedUsage := checkedUsageOf uncheckedUsage cb
      if checkedUsage = 0 then ⟨Error3.BAD_VALUE, raw, none⟩
      else if cb.bufferSize = 0 then ⟨Error3.BAD_BUFFER, raw, none⟩
      else if cb.bufferPtr = 0 then ⟨Error3.BAD_BUFFER, raw, none⟩
      else if waitHidlFence acquireFence ≠ 0 then ⟨Error3.BAD_VALUE, raw, none⟩
      else
        match ycbcrLayoutSwitch cb.format cb.width cb.height with
        | none => ⟨Error3.BAD_BUFFER, raw, none⟩
        | some (yStride, cStride, cStep, uOffset, vOffset) =>
          if cb.hostHandle ≠ 0 ∧ lockHostImpl hostFlushRes ≠ Error3.NONE then
            ⟨lockHostImpl hostFlushRes, raw, none⟩
          else
            ⟨Error3.NONE, RawBuffer.valid (setLocked cb checkedUsage accessRegion),
              some ⟨cb.bufferPtr, cb.bufferPtr + uOffset, cb.bufferPtr + vOffset,
                yStride, cStride, cStep⟩⟩

/-- `unlockImpl` (mapper3.cpp lines 506-537). `unlockHostImpl` (the
CPU-write push to the host) transfers pixel data but does not change any
handle field and cannot fail, so it leaves no trace in the model. The
four locked-region fields and `lockedUsage` are always cleared on the
success path. -/
def unlockImpl (raw : RawBuffer) : Error3 × RawBuffer :=
  match raw with
  | RawBuffer.null => (Error3.BAD_BUFFER, raw)
  | RawBuffer.unrecognized => (Error3.BAD_BUFFER, raw)
  | RawBuffer.valid cb =>
    if cb.lockedUsage = 0 then (Error3.BAD_VALUE, raw)
    else if cb.bufferSize = 0 then (Error3.BAD_BUFFER, raw)
    else if cb.bufferPtr = 0 then (Error3.BAD_BUFFER, raw)
    else
      (Error3.NONE, RawBuffer.valid
        { cb with
            lockedLeft := 0
            lockedTop := 0
            lockedWidth := 0
            lockedHeight := 0
            lockedUsage := 0 })

/-- `freeBuffer` (mapper3.cpp lines 125-142): `BAD_BUFFER` for a null or
unrecognized handle; otherwise unmap (if mapped), close and delete the
native handle — afterwards the handle no longer exists, modelled as
`RawBuffer.null`. -/
def freeBuffer (raw : RawBuffer) : Error3 × RawBuffer :=
  match raw with
  | RawBuffer.null => (Error3.BAD_BUFFER, raw)
  | RawBuffer.unrecognized => (Error3.BAD_BUFFER, raw)
  | RawBuffer.valid _ => (Error3.NONE, RawBuffer.null)

/-- `importBufferImpl` (mapper3.cpp lines 223-257). Oracles for the
external calls: `nhNull` — the input `native_handle_t*` is null;
`cloneOk` — `native_handle_clone` succeeded; `decoded` — what
`cb_handle_30_t::from(imported)` sees (`none` = magic check fails, clone is
closed and deleted); `mapResult` — outcome of
`GoldfishAddressSpaceBlock::memoryMap` (`none` = failure, clone released;
`some p` = mapped at address `p`). The mapped pointer is only set when
`mmapedSize > 0`. -/
def importBufferImpl (nhNull : Bool) (cloneOk : Bool)
    (decoded : Option CbHandle) (mapResult : Option Nat) : Error3 × RawBuffer :=
  if nhNull then (Error3.BAD_BUFFER, RawBuffer.null)
  else if ¬cloneOk then (Error3.BAD_BUFFER, RawBuffer.null)
  else
    match decoded with
    | none => (Error3.BAD_BUFFER, RawBuffer.null)
    | some cb =>
      if cb.mmapedSize > 0 then
        match mapResult with
        | none => (Error3.NO_RESOURCES, RawBuffer.null)
        | some p => (Error3.NONE, RawBuffer.valid { cb with bufferPtr := p })
      else
        (Error3.NONE, RawBuffer.valid cb)

/-- `IMapper::BufferDescriptorInfo`: width, height, layerCount (`uint32_t`),
format (`PixelFormat`, here its numeric value), usage (`uint64_t`). -/
structure BufferDescriptorInfo where
  width : Nat
  height : Nat
  layerCount : Nat
  format : Nat
  usage : Nat
deriving DecidableEq, Repr

/-- `needGpuBuffer` (mapper3.cpp lines 83-89): the usage requests a
GPU-backed buffer. -/
def needGpuBuffer (usage : Nat) : Bool :=
  Nat.land usage
    (GPU_TEXTURE ||| GPU_RENDER_TARGET ||| COMPOSER_OVERLAY
      ||| COMPOSER_CLIENT_TARGET ||| GPU_DATA_BUFFER) != 0

/-- `isSupportedImpl` (mapper3.cpp lines 594-635): zero width/height or
`layerCount != 1` or any reserved usage bit → unsupported; then the format
switch, where `const uint32_t usage = usage64;` truncates the usage to 32
bits before `needGpuBuffer` and the `VIDEO_DECODER` test. -/
def isSupportedImpl (d : BufferDescriptorInfo) : Bool :=
  if d.width = 0 then false
  else if d.height = 0 then false
  else if d.layerCount ≠ 1 then false
  else if Nat.land d.usage kReservedUsage ≠ 0 then false
  else
    let usage := d.usage % 2 ^ 32
    if d.format = RGBA_8888 ∨ d.format = RGBX_8888 ∨ d.format = BGRA_8888
        ∨ d.format = RGB_565 ∨ d.format = RGBA_FP16 ∨ d.format = RGBA_1010102
        ∨ d.format = YV12 ∨ d.format = YCBCR_420_888 ∨ d.format = YCBCR_P010 then
      true
    else if d.format = IMPLEMENTATION_DEFINED then
      false
    else if d.format = RGB_888 ∨ d.format = YCRCB_420_SP ∨ d.format = RAW16
        ∨ d.format = Y16 ∨ d.format = BLOB then
      !needGpuBuffer usage
    else if d.format = kOMX_COLOR_FormatYUV420Planar then
      Nat.land usage VIDEO_DECODER != 0
    else
      false

/-- The invariant of the spec's data model: `lockedUsage != 0` implies the
mapped pointer is non-null and `bufferSize > 0`. -/
def lockedInv (cb : CbHandle) : Prop :=
  cb.lockedUsage ≠ 0 → cb.bufferPtr ≠ 0 ∧ 0 < cb.bufferSize

/-- `lockedInv` lifted to `RawBuffer` (trivially true when no handle
exists). -/
def rawInv : RawBuffer → Prop
  | RawBuffer.valid cb => lockedInv cb
  | RawBuffer.null => True
  | RawBuffer.unrecognized => True

instance (cb : CbHandle) : Decidable (lockedInv cb) := by
  unfold lockedInv; infer_instance

instance (raw : RawBuffer) : Decidable (rawInv raw) := by
  cases raw <;> simp [rawInv] <;> infer_instance

/-- C1: the YUV plane-layout computation performed by `lockYCbCr` matches
the spec's per-format table: YCRCB_420_SP, YV12, YCBCR_420_888 and
YCBCR_P010 rows, plus the concrete YV12 instance at width=17, height=10
(yStride=32, cStride=16, chromaStep=1, uOffset=400, vOffset=320). -/
theorem ycbcr_layout_matches_spec :
    (∀ w h : Nat, 0 < w → 0 < h →
      ycbcrLayoutSwitch YCRCB_420_SP w h = some (w, w, 2, w * h + 1, w * h)) ∧
    (∀ w h : Nat, 0 < w → 0 < h →
      ycbcrLayoutSwitch YV12 w h =
        some (align w 16, align (align w 16 / 2) 16, 1,
          align w 16 * h + align (align w 16 / 2) 16 * h / 2,
          align w 16 * h)) ∧
    (∀ w h : Nat, 0 < w → 0 < h →
      ycbcrLayoutSwitch YCBCR_420_888 w h =
        some (w, w / 2, 1, h * w, h * w + w / 2 * h / 2)) ∧
    (∀ w h : Nat, 0 < w → 0 < h →
      ycbcrLayoutSwitch YCBCR_P010 w h =
        some (w * 2, w * 2, 4, h * (w * 2), h * (w * 2) + 2)) ∧
    ycbcrLayoutSwitch YV12 17 10 = some (32, 16, 1, 400, 320) := by
  refine ⟨?_, ?_, ?_, ?_, by decide⟩ <;> intro w h _ _ <;> rfl

/-- Witness for C1 at concrete inputs (one per format row). -/
theorem ycbcr_layout_matches_spec_witness :
    ycbcrLayoutSwitch YCRCB_420_SP 4 2 = some (4, 4, 2, 4 * 2 + 1, 4 * 2) ∧
    ycbcrLayoutSwitch YV12 17 10 =
      some (align 17 16, align (align 17 16 / 2) 16, 1,
        align 17 16 * 10 + align (align 17 16 / 2) 16 * 10 / 2,
        align 17 16 * 10) ∧
    ycbcrLayoutSwitch YCBCR_420_888 6 4 = some (6, 6 / 2, 1, 4 * 6, 4 * 6 + 6 / 2 * 4 / 2) ∧
    ycbcrLayoutSwitch YCBCR_P010 3 2 = some (3 * 2, 3 * 2, 4, 2 * (3 * 2), 2 * (3 * 2) + 2) :=
  ⟨ycbcr_layout_matches_spec.1 4 2 (by decide) (by decide),
   ycbcr_layout_matches_spec.2.1 17 10 (by decide) (by decide),
   ycbcr_layout_matches_spec.2.2.1 6 4 (by decide) (by decide),
   ycbcr_layout_matches_spec.2.2.2.1 3 2 (by decide) (by decide)⟩

/-- C3: locking an already-locked handle (`lockedUsage != 0`) via `lock` or
`lockYCbCr` returns `BAD_VALUE` and leaves the handle — in particular
`lockedUsage` and the locked region — unchanged. -/
theorem lock_on_locked_is_BAD_VALUE :
    ∀ (cb : CbHandle) (u : Nat) (r : Rect) (f : HidlFence) (hres : Int),
      cb.lockedUsage ≠ 0 →
      lockImpl (RawBuffer.valid cb) u r f hres =
        ⟨Error3.BAD_VALUE, RawBuffer.valid cb, 0, 0, 0⟩ ∧
      lockYCbCrImpl (RawBuffer.valid cb) u r f hres =
        ⟨Error3.BAD_VALUE, RawBuffer.valid cb, none⟩ := by
  intro cb u r f hres hlocked
  constructor <;> simp [lockImpl, lockYCbCrImpl, hlocked]

/-- Witness for C3: a concrete locked handle. -/
theorem lock_on_locked_is_BAD_VALUE_witness :
    lockImpl
        (RawBuffer.valid ⟨4, 4, 1, 0x33, 64, 64, 0, 0, 1024, 7, 4, 4, 0, 0, 3, 0, 0, 4, 4⟩)
        0x33 ⟨0, 0, 4, 4⟩ HidlFence.emptyFence 0 =
      ⟨Error3.BAD_VALUE,
        RawBuffer.valid ⟨4, 4, 1, 0x33, 64, 64, 0, 0, 1024, 7, 4, 4, 0, 0, 3, 0, 0, 4, 4⟩,
        0, 0, 0⟩ :=
  (lock_on_locked_is_BAD_VALUE
    ⟨4, 4, 1, 0x33, 64, 64, 0, 0, 1024, 7, 4, 4, 0, 0, 3, 0, 0, 4, 4⟩
    0x33 ⟨0, 0, 4, 4⟩ HidlFence.emptyFence 0 (by decide)).1

/-- C4: on an unlocked handle, with an acquire fence whose wait succeeds,
`lock` returns `BAD_VALUE` exactly when
`checkedUsage = usage & declaredUsage & (CPU_READ_MASK|CPU_WRITE_MASK)`
is zero; in particular a requested usage disjoint from the declared CPU
read/write bits is rejected with `BAD_VALUE`. -/
theorem lock_BAD_VALUE_iff_checked_usage_zero :
    ∀ (cb : CbHandle) (u : Nat) (r : Rect) (f : HidlFence) (hres : Int),
      cb.lockedUsage = 0 → waitHidlFence f = 0 →
      (((lockImpl (RawBuffer.valid cb) u r f hres).err = Error3.BAD_VALUE ↔
          Nat.land (Nat.land u cb.usage) (CPU_READ_MASK ||| CPU_WRITE_MASK) = 0) ∧
        (Nat.land (Nat.land u cb.usage) (CPU_READ_MASK ||| CPU_WRITE_MASK) = 0 →
          (lockImpl (RawBuffer.valid cb) u r f hres).err = Error3.BAD_VALUE)) := by
  intro cb u r f hres hunlocked hfence
  have hmain : (lockImpl (RawBuffer.valid cb) u r f hres).err = Error3.BAD_VALUE ↔
      Nat.land (Nat.land u cb.usage) (CPU_READ_MASK ||| CPU_WRITE_MASK) = 0 := by
    simp only [lockImpl, checkedUsageOf, hunlocked, hfence, lockHostImpl]
    split_ifs with h1 h2 h3 h4 h5 h6 <;> simp_all
  exact ⟨hmain, fun h => hmain.mpr h⟩

/-- Witness for C4: a handle declaring only CPU-read usage, locked with a
disjoint (GPU-only) requested usage, is rejected with `BAD_VALUE`. -/
theorem lock_BAD_VALUE_iff_checked_usage_zero_witness :
    (lockImpl (RawBuffer.valid ⟨4, 4, 1, 0x3, 64, 64, 0, 0, 1024, 0, 4, 4, 0, 0, 0, 0, 0, 0, 0⟩)
        (2 ^ 8) ⟨0, 0, 4, 4⟩ HidlFence.emptyFence 0).err = Error3.BAD_VALUE :=
  (lock_BAD_VALUE_iff_checked_usage_zero
    ⟨4, 4, 1, 0x3, 64, 64, 0, 0, 1024, 0, 4, 4, 0, 0, 0, 0, 0, 0, 0⟩
    (2 ^ 8) ⟨0, 0, 4, 4⟩ HidlFence.emptyFence 0 (by decide) (by decide)).2 (by decide)

/-- C5: a successful `lock` records `lockedUsage = checkedUsage`, and the
locked region is the caller's requested region when the checked usage has a
CPU-write bit, and the full buffer extent `(0, 0, width, height)`
otherwise. -/
theorem lock_success_records_state :
    ∀ (cb : CbHandle) (u : Nat) (r : Rect) (f : HidlFence) (hres : Int) (cb' : CbHandle),
      (lockImpl (RawBuffer.valid cb) u r f hres).err = Error3.NONE →
      (lockImpl (RawBuffer.valid cb) u r f hres).buf = RawBuffer.valid cb' →
      cb'.lockedUsage = checkedUsageOf u cb ∧
      (Nat.land (checkedUsageOf u cb) CPU_WRITE_MASK ≠ 0 →
        cb'.lockedLeft = r.left ∧ cb'.lockedTop = r.top ∧
        cb'.lockedWidth = r.width ∧ cb'.lockedHeight = r.height) ∧
      (Nat.land (checkedUsageOf u cb) CPU_WRITE_MASK = 0 →
        cb'.lockedLeft = 0 ∧ cb'.lockedTop = 0 ∧
        cb'.lockedWidth = (cb.width : Int) ∧ cb'.lockedHeight = (cb.height : Int)) := by
  intro cb u r f hres cb' herr hbuf
  simp only [lockImpl] at herr hbuf
  split_ifs at herr hbuf <;> simp_all
  subst hbuf
  unfold setLocked
  split_ifs with hw <;> simp_all

/-- Witness for C5: a CPU-write lock records the requested region. -/
theorem lock_success_records_state_witness :
    (⟨4, 4, 1, 0x33, 64, 64, 0, 0, 1024, 0, 4, 4, 0, 0, 0x33, 1, 2, 3, 4⟩ :
        CbHandle).lockedUsage =
      checkedUsageOf 0x33 ⟨4, 4, 1, 0x33, 64, 64, 0, 0, 1024, 0, 4, 4, 0, 0, 0, 0, 0, 0, 0⟩ :=
  (lock_success_records_state
    ⟨4, 4, 1, 0x33, 64, 64, 0, 0, 1024, 0, 4, 4, 0, 0, 0, 0, 0, 0, 0⟩
    0x33 ⟨1, 2, 3, 4⟩ HidlFence.emptyFence 0
    ⟨4, 4, 1, 0x33, 64, 64, 0, 0, 1024, 0, 4, 4, 0, 0, 0x33, 1, 2, 3, 4⟩
    (by decide) (by decide)).1

/-- C6: after any successful `lock`, `unlock` on the resulting handle
succeeds and restores the unlocked state completely: `lockedUsage = 0` and
locked region `(0, 0, 0, 0)` — `lock` then `unlock` is a full round trip on
the lock state. -/
theorem lock_unlock_roundtrip :
    ∀ (cb : CbHandle) (u : Nat) (r : Rect) (f : HidlFence) (hres : Int),
      (lockImpl (RawBuffer.valid cb) u r f hres).err = Error3.NONE →
      ∃ cb1,
        (lockImpl (RawBuffer.valid cb) u r f hres).buf = RawBuffer.valid cb1 ∧
        ∃ cb2,
          unlockImpl (RawBuffer.valid cb1) = (Error3.NONE, RawBuffer.valid cb2) ∧
          cb2.lockedUsage = 0 ∧ cb2.lockedLeft = 0 ∧ cb2.lockedTop = 0 ∧
          cb2.lockedWidth = 0 ∧ cb2.lockedHeight = 0 := by
  intro cb u r f hres herr
  simp only [lockImpl] at herr ⊢
  split_ifs at herr ⊢ with h1 h2 h3 h4 h5 h6
  · exact absurd herr h6.2
  · refine ⟨setLocked cb (checkedUsageOf u cb) r, rfl, ?_⟩
    have hlu : (setLocked cb (checkedUsageOf u cb) r).lockedUsage =
        checkedUsageOf u cb := by
      unfold setLocked; split_ifs <;> rfl
    have hsz' : (setLocked cb (checkedUsageOf u cb) r).bufferSize = cb.bufferSize := by
      unfold setLocked; split_ifs <;> rfl
    have hp' : (setLocked cb (checkedUsageOf u cb) r).bufferPtr = cb.bufferPtr := by
      unfold setLocked; split_ifs <;> rfl
    refine ⟨{ setLocked cb (checkedUsageOf u cb) r with
        lockedLeft := 0, lockedTop := 0, lockedWidth := 0, lockedHeight := 0,
        lockedUsage := 0 }, ?_, rfl, rfl, rfl, rfl, rfl⟩
    simp only [unlockImpl, hlu, hsz', hp']
    rw [if_neg h2, if_neg h3, if_neg h4]

/-- Witness for C6: a concrete successful lock/unlock round trip. -/
theorem lock_unlock_roundtrip_witness :
    ∃ cb1,
      (lockImpl
          (RawBuffer.valid ⟨4, 4, 1, 0x33, 64, 64, 0, 0, 1024, 0, 4, 4, 0, 0, 0, 0, 0, 0, 0⟩)
          0x33 ⟨1, 2, 3, 4⟩ HidlFence.emptyFence 0).buf = RawBuffer.valid cb1 ∧
      ∃ cb2,
        unlockImpl (RawBuffer.valid cb1) = (Error3.NONE, RawBuffer.valid cb2) ∧
        cb2.lockedUsage = 0 ∧ cb2.lockedLeft = 0 ∧ cb2.lockedTop = 0 ∧
        cb2.lockedWidth = 0 ∧ cb2.lockedHeight = 0 :=
  lock_unlock_roundtrip
    ⟨4, 4, 1, 0x33, 64, 64, 0, 0, 1024, 0, 4, 4, 0, 0, 0, 0, 0, 0, 0⟩
    0x33 ⟨1, 2, 3, 4⟩ HidlFence.emptyFence 0 (by decide)

/-- C2: the invariant "`lockedUsage != 0` implies the mapped pointer is
non-null and `bufferSize > 0`" is preserved by import, free, lock,
lockYCbCr and unlock. For import, the incoming decoded handle is assumed to
satisfy the invariant and a successful `memoryMap` yields a non-null
pointer; a handle only becomes locked after `lock`/`lockYCbCr` has verified
`bufferSize != 0` and a non-null mapped pointer, and `unlock` resets
`lockedUsage` to 0. -/
theorem locked_invariant_preserved :
    (∀ (nhNull cloneOk : Bool) (decoded : Option CbHandle) (mapResult : Option Nat),
      (∀ cb, decoded = some cb → lockedInv cb) →
      (∀ p, mapResult = some p → p ≠ 0) →
      rawInv (importBufferImpl nhNull cloneOk decoded mapResult).2) ∧
    (∀ raw, rawInv (freeBuffer raw).2) ∧
    (∀ (raw : RawBuffer) (u : Nat) (r : Rect) (f : HidlFence) (hres : Int),
      rawInv raw → rawInv (lockImpl raw u r f hres).buf) ∧
    (∀ (raw : RawBuffer) (u : Nat) (r : Rect) (f : HidlFence) (hres : Int),
      rawInv raw → rawInv (lockYCbCrImpl raw u r f hres).buf) ∧
    (∀ raw : RawBuffer, rawInv raw → rawInv (unlockImpl raw).2) := by
  refine ⟨?_, ?_, ?_, ?_, ?_⟩
  · intro nhNull cloneOk decoded mapResult hdec hmap
    cases nhNull <;> cases cloneOk <;>
      (simp only [importBufferImpl, Bool.false_eq_true, if_false, if_true, not_false_iff,
        not_true, ite_true, ite_false, rawInv]
       try trivial)
    cases decoded with
    | none => simp [rawInv]
    | some cb =>
      simp only []
      split_ifs with hsz
      · cases mapResult with
        | none => simp [rawInv]
        | some p =>
          simp only [rawInv, lockedInv]
          intro _
          exact ⟨hmap p rfl, (hdec cb rfl (by simpa using ‹_›)).2⟩
      · simpa [rawInv] using hdec cb rfl
  · intro raw
    cases raw <;> simp [freeBuffer, rawInv]
  · intro raw u r f hres hinv
    cases raw with
    | null => exact hinv
    | unrecognized => exact hinv
    | valid cb =>
      simp only [lockImpl]
      split_ifs with h1 h2 h3 h4 h5 h6 <;> try exact hinv
      simp only [rawInv, lockedInv]
      intro _
      have hp : (setLocked cb (checkedUsageOf u cb) r).bufferPtr = cb.bufferPtr := by
        unfold setLocked; split_ifs <;> rfl
      have hs : (setLocked cb (checkedUsageOf u cb) r).bufferSize = cb.bufferSize := by
        unfold setLocked; split_ifs <;> rfl
      rw [hp, hs]
      exact ⟨h4, Nat.pos_of_ne_zero h3⟩
  · intro raw u r f hres hinv
    cases raw with
    | null => exact hinv
    | unrecognized => exact hinv
    | valid cb =>
      simp only [lockYCbCrImpl]
      cases hlay : ycbcrLayoutSwitch cb.format cb.width cb.height with
      | none => split_ifs <;> exact hinv
      | some layout =>
        obtain ⟨yStride, cStride, cStep, uOffset, vOffset⟩ := layout
        split_ifs with h1 h2 h3 h4 h5 h6 <;> try exact hinv
        simp only [rawInv, lockedInv]
        intro _
        have hp : (setLocked cb (checkedUsageOf u cb) r).bufferPtr = cb.bufferPtr := by
          unfold setLocked; split_ifs <;> rfl
        have hs : (setLocked cb (checkedUsageOf u cb) r).bufferSize = cb.bufferSize := by
          unfold setLocked; split_ifs <;> rfl
        rw [hp, hs]
        exact ⟨h4, Nat.pos_of_ne_zero h3⟩
  · intro raw hinv
    cases raw with
    | null => exact hinv
    | unrecognized => exact hinv
    | valid cb =>
      simp only [unlockImpl]
      split_ifs with h1 h2 h3 <;> try exact hinv
      simp [rawInv, lockedInv]

/-- Witness for C2: the invariant holds across a concrete import, lock and
unlock. -/
theorem locked_invariant_preserved_witness :
    rawInv (importBufferImpl false true
        (some ⟨4, 4, 1, 0x33, 64, 64, 0, 0, 0, 0, 4, 4, 0, 0, 0, 0, 0, 0, 0⟩)
        (some 1024)).2 ∧
    rawInv (lockImpl
        (RawBuffer.valid ⟨4, 4, 1, 0x33, 64, 64, 0, 0, 1024, 0, 4, 4, 0, 0, 0, 0, 0, 0, 0⟩)
        0x33 ⟨0, 0, 4, 4⟩ HidlFence.emptyFence 0).buf ∧
    rawInv (unlockImpl
        (RawBuffer.valid ⟨4, 4, 1, 0x33, 64, 64, 0, 0, 1024, 0, 4, 4, 0, 0, 0x33, 0, 0, 4, 4⟩)).2 :=
  ⟨locked_invariant_preserved.1 false true
      (some ⟨4, 4, 1, 0x33, 64, 64, 0, 0, 0, 0, 4, 4, 0, 0, 0, 0, 0, 0, 0⟩) (some 1024)
      (by decide) (by decide),
   locked_invariant_preserved.2.2.1
      (RawBuffer.valid ⟨4, 4, 1, 0x33, 64, 64, 0, 0, 1024, 0, 4, 4, 0, 0, 0, 0, 0, 0, 0⟩)
      0x33 ⟨0, 0, 4, 4⟩ HidlFence.emptyFence 0 (by decide),
   locked_invariant_preserved.2.2.2.2
      (RawBuffer.valid ⟨4, 4, 1, 0x33, 64, 64, 0, 0, 1024, 0, 4, 4, 0, 0, 0x33, 0, 0, 4, 4⟩)
      (by decide)⟩

/-- C7 counterexample: an unlocked handle with zero buffer size gets
`BAD_VALUE` from `unlock`, not `BAD_BUFFER` — the `lockedUsage == 0` check
runs before the zero-buffer-size check. -/
theorem unlock_zero_size_unlocked_counterexample :
    (unlockImpl (RawBuffer.valid
        ⟨4, 4, 1, 0x33, 0, 0, 0, 0, 0, 0, 4, 4, 0, 0, 0, 0, 0, 0, 0⟩)).1 =
      Error3.BAD_VALUE ∧
    (⟨4, 4, 1, 0x33, 0, 0, 0, 0, 0, 0, 4, 4, 0, 0, 0, 0, 0, 0, 0⟩ :
        CbHandle).bufferSize = 0 ∧
    (⟨4, 4, 1, 0x33, 0, 0, 0, 0, 0, 0, 4, 4, 0, 0, 0, 0, 0, 0, 0⟩ :
        CbHandle).lockedUsage = 0 ∧
    Error3.BAD_VALUE ≠ Error3.BAD_BUFFER := by
  refine ⟨rfl, rfl, rfl, by decide⟩

/-- C7 amended: `unlock` returns `BAD_BUFFER` for a null or unrecognized
handle; for a recognized handle the not-currently-locked check
(`lockedUsage == 0` → `BAD_VALUE`) runs first, and only a currently-locked
handle with zero buffer size (or a null mapped pointer) yields
`BAD_BUFFER`. -/
theorem unlock_error_precedence :
    (unlockImpl RawBuffer.null).1 = Error3.BAD_BUFFER ∧
    (unlockImpl RawBuffer.unrecognized).1 = Error3.BAD_BUFFER ∧
    (∀ cb : CbHandle, cb.lockedUsage = 0 →
      (unlockImpl (RawBuffer.valid cb)).1 = Error3.BAD_VALUE) ∧
    (∀ cb : CbHandle, cb.lockedUsage ≠ 0 → (cb.bufferSize = 0 ∨ cb.bufferPtr = 0) →
      (unlockImpl (RawBuffer.valid cb)).1 = Error3.BAD_BUFFER) := by
  refine ⟨rfl, rfl, ?_, ?_⟩
  · intro cb h
    simp [unlockImpl, h]
  · intro cb h hz
    rcases hz with hz | hz <;> simp [unlockImpl, h, hz]

/-- Witness for the amended C7 at concrete handles. -/
theorem unlock_error_precedence_witness :
    (unlockImpl (RawBuffer.valid
        ⟨4, 4, 1, 0x33, 0, 0, 0, 0, 0, 0, 4, 4, 0, 0, 0, 0, 0, 0, 0⟩)).1 =
      Error3.BAD_VALUE ∧
    (unlockImpl (RawBuffer.valid
        ⟨4, 4, 1, 0x33, 0, 0, 0, 0, 0, 0, 4, 4, 0, 0, 3, 0, 0, 0, 0⟩)).1 =
      Error3.BAD_BUFFER :=
  ⟨unlock_error_precedence.2.2.1
      ⟨4, 4, 1, 0x33, 0, 0, 0, 0, 0, 0, 4, 4, 0, 0, 0, 0, 0, 0, 0⟩ (by decide),
   unlock_error_precedence.2.2.2
      ⟨4, 4, 1, 0x33, 0, 0, 0, 0, 0, 0, 4, 4, 0, 0, 3, 0, 0, 0, 0⟩
      (by decide) (Or.inl (by decide))⟩

/-- C9: the `importBuffer` error paths — null raw handle → `BAD_BUFFER`;
clone failure → `BAD_BUFFER`; a clone that does not decode to a recognized
buffer-handle layout is destroyed and `BAD_BUFFER` is returned; a declared
non-zero mapped size with a mapping failure → `NO_RESOURCES` (clone
released); otherwise success, setting the mapped pointer when a mapping
took place. -/
theorem import_buffer_error_paths :
    (∀ (cloneOk : Bool) (decoded : Option CbHandle) (mapResult : Option Nat),
      importBufferImpl true cloneOk decoded mapResult =
        (Error3.BAD_BUFFER, RawBuffer.null)) ∧
    (∀ (decoded : Option CbHandle) (mapResult : Option Nat),
      importBufferImpl false false decoded mapResult =
        (Error3.BAD_BUFFER, RawBuffer.null)) ∧
    (∀ mapResult : Option Nat,
      importBufferImpl false true none mapResult =
        (Error3.BAD_BUFFER, RawBuffer.null)) ∧
    (∀ cb : CbHandle, 0 < cb.mmapedSize →
      importBufferImpl false true (some cb) none =
        (Error3.NO_RESOURCES, RawBuffer.null)) ∧
    (∀ (cb : CbHandle) (p : Nat), 0 < cb.mmapedSize →
      importBufferImpl false true (some cb) (some p) =
        (Error3.NONE, RawBuffer.valid { cb with bufferPtr := p })) ∧
    (∀ (cb : CbHandle) (mapResult : Option Nat), cb.mmapedSize = 0 →
      importBufferImpl false true (some cb) mapResult =
        (Error3.NONE, RawBuffer.valid cb)) := by
  refine ⟨fun _ _ _ => rfl, fun _ _ => rfl, fun _ => rfl, ?_, ?_, ?_⟩
  · intro cb h
    simp [importBufferImpl, h]
  · intro cb p h
    simp [importBufferImpl, h]
  · intro cb mapResult h
    simp [importBufferImpl, h]

/-- Witness for C9 at a concrete handle, with and without a mapping. -/
theorem import_buffer_error_paths_witness :
    importBufferImpl false true
        (some ⟨4, 4, 1, 0x33, 64, 64, 0, 0, 0, 0, 4, 4, 0, 0, 0, 0, 0, 0, 0⟩) none =
      (Error3.NO_RESOURCES, RawBuffer.null) ∧
    importBufferImpl false true
        (some ⟨4, 4, 1, 0x33, 64, 64, 0, 0, 0, 0, 4, 4, 0, 0, 0, 0, 0, 0, 0⟩)
        (some 1024) =
      (Error3.NONE, RawBuffer.valid
        ⟨4, 4, 1, 0x33, 64, 64, 0, 0, 1024, 0, 4, 4, 0, 0, 0, 0, 0, 0, 0⟩) ∧
    importBufferImpl false true
        (some ⟨4, 4, 1, 0x33, 64, 0, 0, 0, 0, 0, 4, 4, 0, 0, 0, 0, 0, 0, 0⟩) none =
      (Error3.NONE, RawBuffer.valid
        ⟨4, 4, 1, 0x33, 64, 0, 0, 0, 0, 0, 4, 4, 0, 0, 0, 0, 0, 0, 0⟩) :=
  ⟨import_buffer_error_paths.2.2.2.1
      ⟨4, 4, 1, 0x33, 64, 64, 0, 0, 0, 0, 4, 4, 0, 0, 0, 0, 0, 0, 0⟩ (by decide),
   import_buffer_error_paths.2.2.2.2.1
      ⟨4, 4, 1, 0x33, 64, 64, 0, 0, 0, 0, 4, 4, 0, 0, 0, 0, 0, 0, 0⟩ 1024 (by decide),
   import_buffer_error_paths.2.2.2.2.2
      ⟨4, 4, 1, 0x33, 64, 0, 0, 0, 0, 0, 4, 4, 0, 0, 0, 0, 0, 0, 0⟩ none (by decide)⟩

/-- C10: on a valid, unlocked, CPU-lockable handle, an empty (null)
acquire-fence handle is treated as already signaled — `lock` proceeds
(never a fence `BAD_VALUE`; `lockYCbCr` likewise never returns
`BAD_VALUE`) — while a structurally malformed fence handle (more than one
fd, or any int fields) makes both calls return `BAD_VALUE` without
changing the lock state. -/
theorem fence_handling :
    ∀ (cb : CbHandle) (u : Nat) (r : Rect) (hres fres : Int) (nF nI : Nat),
      cb.lockedUsage = 0 → checkedUsageOf u cb ≠ 0 →
      cb.bufferSize ≠ 0 → cb.bufferPtr ≠ 0 →
      (((lockImpl (RawBuffer.valid cb) u r HidlFence.emptyFence hres).err = Error3.NONE ∨
        (lockImpl (RawBuffer.valid cb) u r HidlFence.emptyFence hres).err =
          Error3.NO_RESOURCES) ∧
       (lockYCbCrImpl (RawBuffer.valid cb) u r HidlFence.emptyFence hres).err ≠
          Error3.BAD_VALUE) ∧
      (1 < nF ∨ nI ≠ 0 →
        lockImpl (RawBuffer.valid cb) u r (HidlFence.fence nF nI fres) hres =
          ⟨Error3.BAD_VALUE, RawBuffer.valid cb, 0, 0, 0⟩ ∧
        lockYCbCrImpl (RawBuffer.valid cb) u r (HidlFence.fence nF nI fres) hres =
          ⟨Error3.BAD_VALUE, RawBuffer.valid cb, none⟩) := by
  intro cb u r hres fres nF nI hunlocked hchk hsz hp
  have hfence0 : waitHidlFence HidlFence.emptyFence = 0 := rfl
  constructor
  · constructor
    · simp only [lockImpl, hunlocked, hchk, hsz, hp, hfence0]
      simp only [lockHostImpl]
      split_ifs <;> simp_all
    · simp only [lockYCbCrImpl, hunlocked, hchk, hsz, hp, hfence0]
      simp only [lockHostImpl]
      cases ycbcrLayoutSwitch cb.format cb.width cb.height <;>
        split_ifs <;> simp_all
  · intro hmal
    have hbad : waitHidlFence (HidlFence.fence nF nI fres) ≠ 0 := by
      simp only [waitHidlFence]
      rcases hmal with hmal | hmal
      · rw [if_pos hmal]; decide
      · split_ifs <;> simp_all
    constructor
    · simp only [lockImpl, hunlocked, hchk, hsz, hp]
      simp_all
    · simp only [lockYCbCrImpl, hunlocked, hchk, hsz, hp]
      simp_all

/-- Witness for C10: concrete null-fence and malformed-fence calls. -/
theorem fence_handling_witness :
    ((lockImpl (RawBuffer.valid
          ⟨4, 4, 1, 0x33, 64, 64, 0, 0, 1024, 0, 4, 4, 0, 0, 0, 0, 0, 0, 0⟩)
        0x33 ⟨0, 0, 4, 4⟩ HidlFence.emptyFence 0).err = Error3.NONE ∨
      (lockImpl (RawBuffer.valid
          ⟨4, 4, 1, 0x33, 64, 64, 0, 0, 1024, 0, 4, 4, 0, 0, 0, 0, 0, 0, 0⟩)
        0x33 ⟨0, 0, 4, 4⟩ HidlFence.emptyFence 0).err = Error3.NO_RESOURCES) ∧
    lockImpl (RawBuffer.valid
        ⟨4, 4, 1, 0x33, 64, 64, 0, 0, 1024, 0, 4, 4, 0, 0, 0, 0, 0, 0, 0⟩)
      0x33 ⟨0, 0, 4, 4⟩ (HidlFence.fence 2 0 0) 0 =
      ⟨Error3.BAD_VALUE,
        RawBuffer.valid ⟨4, 4, 1, 0x33, 64, 64, 0, 0, 1024, 0, 4, 4, 0, 0, 0, 0, 0, 0, 0⟩,
        0, 0, 0⟩ :=
  ⟨(fence_handling ⟨4, 4, 1, 0x33, 64, 64, 0, 0, 1024, 0, 4, 4, 0, 0, 0, 0, 0, 0, 0⟩
      0x33 ⟨0, 0, 4, 4⟩ 0 0 2 0
      (by decide) (by decide) (by decide) (by decide)).1.1,
   ((fence_handling ⟨4, 4, 1, 0x33, 64, 64, 0, 0, 1024, 0, 4, 4, 0, 0, 0, 0, 0, 0, 0⟩
      0x33 ⟨0, 0, 4, 4⟩ 0 0 2 0
      (by decide) (by decide) (by decide) (by decide)).2 (Or.inl (by decide))).1⟩

/-- C8 counterexample: two descriptors identical in width, height,
layerCount and format (RGB_888), both with no reserved usage bit set,
on which the support check returns different results — the result does
depend on usage bits beyond the reserved ones (here `GPU_TEXTURE`),
so no characterization of the form "true iff format ∈ supported set ∧
layerCount = 1 ∧ width > 0 ∧ height > 0 ∧ no reserved bit" can hold. -/
theorem isSupported_usage_dependence_counterexample :
    isSupportedImpl ⟨1, 1, 1, RGB_888, 0⟩ = true ∧
    isSupportedImpl ⟨1, 1, 1, RGB_888, GPU_TEXTURE⟩ = false ∧
    Nat.land 0 kReservedUsage = 0 ∧
    Nat.land GPU_TEXTURE kReservedUsage = 0 := by
  refine ⟨by decide, by decide, by decide, by decide⟩

/-- C8 amended: the support check returns true iff width > 0, height > 0,
layerCount = 1, no reserved usage bit is set, and either the format is in
the unconditionally supported set (RGBA_8888, RGBX_8888, BGRA_8888,
RGB_565, RGBA_FP16, RGBA_1010102, YV12, YCBCR_420_888, YCBCR_P010), or it
is one of RGB_888, YCRCB_420_SP, RAW16, Y16, BLOB and the (32-bit
truncated) usage requests no GPU buffer, or it is the OMX YUV420Planar
format (19) and the truncated usage has the VIDEO_DECODER bit. -/
theorem isSupported_characterization :
    ∀ d : BufferDescriptorInfo,
      isSupportedImpl d = true ↔
        (d.width ≠ 0 ∧ d.height ≠ 0 ∧ d.layerCount = 1 ∧
         Nat.land d.usage kReservedUsage = 0 ∧
         ((d.format = RGBA_8888 ∨ d.format = RGBX_8888 ∨ d.format = BGRA_8888
            ∨ d.format = RGB_565 ∨ d.format = RGBA_FP16 ∨ d.format = RGBA_1010102
            ∨ d.format = YV12 ∨ d.format = YCBCR_420_888 ∨ d.format = YCBCR_P010)
          ∨ ((d.format = RGB_888 ∨ d.format = YCRCB_420_SP ∨ d.format = RAW16
              ∨ d.format = Y16 ∨ d.format = BLOB)
             ∧ needGpuBuffer (d.usage % 2 ^ 32) = false)
          ∨ (d.format = kOMX_COLOR_FormatYUV420Planar
             ∧ Nat.land (d.usage % 2 ^ 32) VIDEO_DECODER ≠ 0))) := by
  intro d
  simp only [isSupportedImpl]
  split_ifs with h1 h2 h3 h4 h5 h6 h7 h8 <;>
    (simp_all [RGBA_8888, RGBX_8888, RGB_888, RGB_565, BGRA_8888, YCRCB_420_SP,
      RGBA_FP16, RAW16, BLOB, IMPLEMENTATION_DEFINED, YCBCR_420_888,
      RGBA_1010102, YCBCR_P010, Y16, YV12, kOMX_COLOR_FormatYUV420Planar]
     try (intro hfmt hdec
          exact absurd hfmt (by omega)))

/-- Witness for the amended C8 at a concrete descriptor. -/
theorem isSupported_characterization_witness :
    isSupportedImpl ⟨4, 4, 1, RGBA_8888, 0x33⟩ = true :=
  (isSupported_characterization ⟨4, 4, 1, RGBA_8888, 0x33⟩).mpr (by decide)

end Mapper3
